import Mathlib

/-!
Shallow embedding of td/telegram/ReferralProgramManager.cpp.

The manager validates referral-program requests against local domain rules,
dispatches at most one wire request per operation, and settles a
caller-supplied promise exactly once from the on_result/on_error completion
path of each query adapter.

Collaborators that live outside ReferralProgramManager.cpp
(DialogManager, UserManager, ChatManager, the generated telegram_api
schema, td/utils helpers) are embedded as explicit parameters or as
definitions marked as modelled.
-/

namespace TdRef

/-- A td::Status error value: numeric code plus message. -/
structure Err where
  code : Int
  message : String
deriving DecidableEq

/-- DialogId tagged union: User, Chat (basic group), Channel, SecretChat or
None, each carrying its numeric identifier. -/
inductive DialogId where
  | user (user_id : Int)
  | chat (chat_id : Int)
  | channel (channel_id : Int)
  | secretChat (secret_chat_id : Int)
  | none
deriving DecidableEq

/-- Bot data returned by UserManager::get_bot_data; only the can_be_edited
field is consulted by this translation unit. -/
structure BotData where
  can_be_edited : Bool
deriving DecidableEq

/-- The collaborator surface consulted by ReferralProgramManager:
DialogManager access checks and input peers, the current user identity,
UserManager bot data and input users, ChatManager channel state. -/
structure TdEnv where
  check_dialog_access : DialogId → Except Err Unit
  my_dialog_id : DialogId
  get_bot_data : Int → Except Err BotData
  is_broadcast_channel : Int → Bool
  can_post_messages : Int → Bool
  get_input_user : Int → Except Err Int
  get_input_peer : DialogId → Option Int

/-- ReferralProgramParameters: commission and month count; the default
constructed value (both fields zero) is the "no program" sentinel. -/
structure ReferralProgramParameters where
  commission : Int
  month_count : Int
deriving DecidableEq

/-- Result of ReferralProgramManager::check_referable_dialog_id: success,
a recoverable Status error, or the UNREACHABLE fatal branch. -/
inductive CheckResult where
  | ok
  | err (e : Err)
  | fatal
deriving DecidableEq

/-- ReferralProgramManager::check_referable_dialog_id: read access is
required first; a User is eligible when it is the current user or an
editable bot; a Chat is always rejected; a Channel must be a broadcast
channel in which the caller can post messages; SecretChat and None hit
UNREACHABLE. -/
def check_referable_dialog_id (env : TdEnv) (dialog_id : DialogId) : CheckResult :=
  match env.check_dialog_access dialog_id with
  | Except.error e => CheckResult.err e
  | Except.ok _ =>
    match dialog_id with
    | DialogId.user uid =>
      if dialog_id = env.my_dialog_id then CheckResult.ok
      else
        match env.get_bot_data uid with
        | Except.error e => CheckResult.err e
        | Except.ok bot_data =>
          if bot_data.can_be_edited then CheckResult.ok
          else CheckResult.err ⟨400, "The bot isn't owned"⟩
    | DialogId.chat _ => CheckResult.err ⟨400, "The chat must be a channel chat"⟩
    | DialogId.channel channel_id =>
      if !(env.is_broadcast_channel channel_id) then
        CheckResult.err ⟨400, "The chat must be a channel chat"⟩
      else if !(env.can_post_messages channel_id) then
        CheckResult.err ⟨400, "Not enough rights in the chat"⟩
      else CheckResult.ok
    | DialogId.secretChat _ => CheckResult.fatal
    | DialogId.none => CheckResult.fatal

/-- Outcome of a manager facade operation: the promise is settled locally
with an error before dispatch, or exactly one wire request is dispatched,
or an internal CHECK/UNREACHABLE fires. -/
inductive OpOutcome (ρ : Type) where
  | settledError (e : Err)
  | dispatched (req : ρ)
  | fatal
deriving DecidableEq

/-! ### Pagination cursor codec (td/utils helpers used by the source) -/

/-- Decimal digit characters of a natural number, most significant first;
embeds the C++ decimal formatting used by the stream output operator. -/
def natDigits (n : Nat) : List Char :=
  if _h : n < 10 then [Nat.digitChar n]
  else natDigits (n / 10) ++ [Nat.digitChar (n % 10)]
decreasing_by exact Nat.div_lt_self (by omega) (by omega)

/-- Decimal representation of a natural number as a string. -/
def natRepr (n : Nat) : String := String.mk (natDigits n)

/-- Decimal representation of a (signed 32-bit) integer as printed by the
C++ stream output operator. -/
def intRepr (i : Int) : String :=
  if i < 0 then String.mk ('-' :: natDigits i.natAbs) else natRepr i.toNat

/-- Numeric value of a decimal digit character. -/
def digitVal (c : Char) : Nat := c.toNat - 48

/-- Accumulate the value of the leading run of decimal digit characters,
stopping at the first non-digit; embeds the parsing loop of
td to_integer. -/
def digitRunVal : List Char → Nat → Nat
  | [], acc => acc
  | c :: cs, acc => if c.isDigit then digitRunVal cs (acc * 10 + digitVal c) else acc

/-- Reduce an unbounded integer to the value of its low 32 bits read as a
two's-complement int32. -/
def int32_wrap (x : Int) : Int :=
  let m := x % 4294967296
  if m < 2147483648 then m else m - 4294967296

/-- Modelled from the spec: td to_integer of int32 (declared in
td/utils/misc.h, outside src/) reads an optional leading minus sign and
then the leading run of decimal digits, best effort, with 32-bit unsigned
accumulation; the call site in GetConnectedStarRefBotsQuery::send shows it
is total and returns a plain int32 with no error path. -/
def to_integer_i32 (s : String) : Int :=
  match s.data with
  | [] => int32_wrap ((digitRunVal [] 0 : Int))
  | c :: rest =>
    if c = '-' then int32_wrap (-(digitRunVal rest 0 : Int))
    else int32_wrap ((digitRunVal (c :: rest) 0 : Int))

/-- Split a character list at the first space, dropping the separator; the
whole list and an empty remainder when no space occurs. -/
def splitData : List Char → List Char × List Char
  | [] => ([], [])
  | c :: cs =>
    if c = ' ' then ([], cs)
    else
      let r := splitData cs
      (c :: r.1, r.2)

/-- Modelled from the spec: td split (td/utils/misc.h, outside src/) cuts a
string at the first space character into head and remainder. -/
def split (s : String) : String × String :=
  let r := splitData s.data
  (String.mk r.1, String.mk r.2)

/-- The cursor string written by GetConnectedStarRefBotsQuery::on_result:
the record date, one space, the record url. -/
def encodeConnectedOffset (date : Int) (url : String) : String :=
  intRepr date ++ " " ++ url

/-- The cursor decoding performed by GetConnectedStarRefBotsQuery::send:
an empty offset keeps date 0 and an empty link; a non-empty offset is
split at the first space and its head parsed with to_integer. -/
def decodeConnectedOffset (offset : String) : Int × String :=
  if offset = "" then (0, "")
  else (to_integer_i32 (split offset).1, (split offset).2)

/-! ### Wire schema values and raw response records -/

/-- Modelled from the spec: generated flag bit for
payments.getSuggestedStarRefBots order_by_date (schema outside src/). -/
def ORDER_BY_DATE_MASK : Int := 2

/-- Modelled from the spec: generated flag bit for
payments.getSuggestedStarRefBots order_by_revenue (schema outside src/). -/
def ORDER_BY_REVENUE_MASK : Int := 1

/-- Modelled from the spec: generated flag bit for
payments.getConnectedStarRefBots offset_date (schema outside src/). -/
def OFFSET_DATE_MASK : Int := 4

/-- Modelled from the spec: generated flag bit for
bots.updateStarRefProgram duration_months (schema outside src/). -/
def DURATION_MONTHS_MASK : Int := 1

/-- Raw telegram_api::starRefProgram record of a suggested bot. -/
structure StarRefProgramRaw where
  bot_id : Int
  commission_permille : Int
  duration_months : Int
  end_date : Int
  daily_revenue_per_user : Int
deriving DecidableEq

/-- Raw telegram_api::connectedBotStarRef record. -/
structure ConnectedBotStarRefRaw where
  revoked : Bool
  url : String
  date : Int
  bot_id : Int
  commission_permille : Int
  duration_months : Int
  participants : Int
  revenue : Int
deriving DecidableEq

/-- Modelled from the spec: StarManager::get_star_count (outside src/)
clamps a raw star amount into its valid non-negative range. -/
def StarManager_get_star_count (amount : Int) : Int :=
  if amount < 0 then 0 else min amount 2251799813685248

/-- ReferralProgramManager::SuggestedBotStarRef: the bot identifier plus
the program info taken from one raw suggested record. -/
structure SuggestedBotStarRef where
  user_id : Int
  info : StarRefProgramRaw
deriving DecidableEq

/-- Constructor SuggestedBotStarRef(starRefProgram): keeps the bot id and
wraps the raw program as the info payload. -/
def SuggestedBotStarRef.ofRaw (ref : StarRefProgramRaw) : SuggestedBotStarRef :=
  ⟨ref.bot_id, ref⟩

/-- Modelled from the spec: SuggestedBotStarRef validity (declared in the
header outside src/) requires a valid, non-zero bot identifier. -/
def SuggestedBotStarRef.is_valid (s : SuggestedBotStarRef) : Bool :=
  decide (0 < s.user_id)

/-- td_api::foundAffiliateProgram object built from a valid suggested
record. -/
structure FoundAffiliateProgram where
  bot_user_id : Int
  info : StarRefProgramRaw
deriving DecidableEq

/-- SuggestedBotStarRef::get_found_affiliate_program_object. -/
def SuggestedBotStarRef.toFound (s : SuggestedBotStarRef) : FoundAffiliateProgram :=
  ⟨s.user_id, s.info⟩

/-- ReferralProgramManager::ConnectedBotStarRef, built from one raw
connectedBotStarRef record. -/
structure ConnectedBotStarRef where
  url : String
  date : Int
  user_id : Int
  parameters : ReferralProgramParameters
  participant_count : Int
  revenue_star_count : Int
  is_revoked : Bool
deriving DecidableEq

/-- Constructor ConnectedBotStarRef(connectedBotStarRef). -/
def ConnectedBotStarRef.ofRaw (ref : ConnectedBotStarRefRaw) : ConnectedBotStarRef :=
  ⟨ref.url, ref.date, ref.bot_id, ⟨ref.commission_permille, ref.duration_months⟩,
    ref.participants, StarManager_get_star_count ref.revenue, ref.revoked⟩

/-- Modelled from the spec: ConnectedBotStarRef validity (declared in the
header outside src/) requires a valid bot identifier and a non-empty
url. -/
def ConnectedBotStarRef.is_valid (r : ConnectedBotStarRef) : Bool :=
  decide (0 < r.user_id) && decide (r.url ≠ "")

/-- td_api::chatAffiliateProgram object built from a valid connected
record. -/
structure ChatAffiliateProgram where
  url : String
  bot_user_id : Int
  parameters : ReferralProgramParameters
  date : Int
  is_revoked : Bool
  participant_count : Int
  revenue_star_count : Int
deriving DecidableEq

/-- ConnectedBotStarRef::get_chat_affiliate_program_object. -/
def ConnectedBotStarRef.toChatAffiliateProgram (r : ConnectedBotStarRef) : ChatAffiliateProgram :=
  ⟨r.url, r.user_id, r.parameters, r.date, r.is_revoked, r.participant_count,
    r.revenue_star_count⟩

/-- Raw payments.suggestedStarRefBots response payload (the users list is
ingested by the identity registry as a side effect and is not modelled). -/
structure SuggestedStarRefBotsResponse where
  count : Int
  suggested_bots : List StarRefProgramRaw
  next_offset : String
deriving DecidableEq

/-- Raw payments.connectedStarRefBots response payload, shared by the
connect, edit, get-single and list queries (the users list is ingested by
the identity registry as a side effect and is not modelled). -/
structure ConnectedStarRefBotsResponse where
  count : Int
  connected_bots : List ConnectedBotStarRefRaw
deriving DecidableEq

/-- A promise settlement event: exactly one success value or one error. -/
inductive Settle (α : Type) where
  | value (a : α)
  | error (e : Err)
deriving DecidableEq

/-- td_api::foundAffiliatePrograms result object. -/
structure FoundAffiliatePrograms where
  total_count : Int
  programs : List FoundAffiliateProgram
  next_offset : String
deriving DecidableEq

/-- td_api::chatAffiliatePrograms result object. -/
structure ChatAffiliatePrograms where
  total_count : Int
  programs : List ChatAffiliateProgram
  next_offset : String
deriving DecidableEq

/-! ### Query adapter completion paths

Each on_result embedding takes the outcome of fetch_result (an error when
deserialization failed) and returns the list of promise settlement events
produced along its control path; on_error first notifies DialogManager
(a registry side effect, not a settlement) and then settles with the
unchanged status. -/

/-- GetSuggestedStarRefBotsQuery::on_error settles once with the status. -/
def GetSuggestedStarRefBotsQuery_on_error (status : Err) : List (Settle FoundAffiliatePrograms) :=
  [Settle.error status]

/-- The normalization loop of GetSuggestedStarRefBotsQuery::on_result:
each raw record is wrapped, invalid records are dropped with a
diagnostic, valid ones are converted in order. -/
def suggestedLoop : List StarRefProgramRaw → List FoundAffiliateProgram
  | [] => []
  | ref :: rest =>
    let star_ref := SuggestedBotStarRef.ofRaw ref
    if star_ref.is_valid then star_ref.toFound :: suggestedLoop rest
    else suggestedLoop rest

/-- The total count emitted by GetSuggestedStarRefBotsQuery::on_result:
the reported count, clamped up to the number of kept programs. -/
def suggestedTotal (ptr : SuggestedStarRefBotsResponse) : Int :=
  let n : Int := ((suggestedLoop ptr.suggested_bots).length : Int)
  if ptr.count < n then n else ptr.count

/-- GetSuggestedStarRefBotsQuery::on_result: a fetch failure delegates to
on_error; otherwise the raw records are normalized and the promise is
settled with the found programs, the clamped total and the verbatim
next offset. -/
def GetSuggestedStarRefBotsQuery_on_result
    (input : Except Err SuggestedStarRefBotsResponse) : List (Settle FoundAffiliatePrograms) :=
  match input with
  | Except.error status => GetSuggestedStarRefBotsQuery_on_error status
  | Except.ok ptr =>
    [Settle.value ⟨suggestedTotal ptr, suggestedLoop ptr.suggested_bots, ptr.next_offset⟩]

/-- ConnectStarRefBotQuery::on_error settles once with the status. -/
def ConnectStarRefBotQuery_on_error (status : Err) : List (Settle ChatAffiliateProgram) :=
  [Settle.error status]

/-- ConnectStarRefBotQuery::on_result: a fetch failure delegates to
on_error; a response without exactly one record, or whose single record is
invalid, delegates to on_error with an internal error; otherwise the
promise is settled with the converted record. -/
def ConnectStarRefBotQuery_on_result
    (input : Except Err ConnectedStarRefBotsResponse) : List (Settle ChatAffiliateProgram) :=
  match input with
  | Except.error status => ConnectStarRefBotQuery_on_error status
  | Except.ok ptr =>
    match ptr.connected_bots with
    | [raw] =>
      let ref := ConnectedBotStarRef.ofRaw raw
      if ref.is_valid then [Settle.value ref.toChatAffiliateProgram]
      else ConnectStarRefBotQuery_on_error ⟨500, "Receive invalid response"⟩
    | _ => ConnectStarRefBotQuery_on_error ⟨500, "Receive invalid response"⟩

/-- EditConnectedStarRefBotQuery::on_error settles once with the status. -/
def EditConnectedStarRefBotQuery_on_error (status : Err) : List (Settle ChatAffiliateProgram) :=
  [Settle.error status]

/-- EditConnectedStarRefBotQuery::on_result, identical in shape to the
connect query: exactly one valid record is required. -/
def EditConnectedStarRefBotQuery_on_result
    (input : Except Err ConnectedStarRefBotsResponse) : List (Settle ChatAffiliateProgram) :=
  match input with
  | Except.error status => EditConnectedStarRefBotQuery_on_error status
  | Except.ok ptr =>
    match ptr.connected_bots with
    | [raw] =>
      let ref := ConnectedBotStarRef.ofRaw raw
      if ref.is_valid then [Settle.value ref.toChatAffiliateProgram]
      else EditConnectedStarRefBotQuery_on_error ⟨500, "Receive invalid response"⟩
    | _ => EditConnectedStarRefBotQuery_on_error ⟨500, "Receive invalid response"⟩

/-- GetConnectedStarRefBotQuery::on_error settles once with the status. -/
def GetConnectedStarRefBotQuery_on_error (status : Err) : List (Settle (Option ChatAffiliateProgram)) :=
  [Settle.error status]

/-- GetConnectedStarRefBotQuery::on_result: zero records settle the
promise with a null value; two or more records, or a single invalid
record, delegate to on_error with an internal error; one valid record is
converted and settles the promise. -/
def GetConnectedStarRefBotQuery_on_result
    (input : Except Err ConnectedStarRefBotsResponse) : List (Settle (Option ChatAffiliateProgram)) :=
  match input with
  | Except.error status => GetConnectedStarRefBotQuery_on_error status
  | Except.ok ptr =>
    match ptr.connected_bots with
    | [] => [Settle.value Option.none]
    | [raw] =>
      let ref := ConnectedBotStarRef.ofRaw raw
      if ref.is_valid then [Settle.value (Option.some ref.toChatAffiliateProgram)]
      else GetConnectedStarRefBotQuery_on_error ⟨500, "Receive invalid response"⟩
    | _ => GetConnectedStarRefBotQuery_on_error ⟨500, "Receive invalid response"⟩

/-- GetConnectedStarRefBotsQuery::on_error settles once with the status. -/
def GetConnectedStarRefBotsQuery_on_error (status : Err) : List (Settle ChatAffiliatePrograms) :=
  [Settle.error status]

/-- The normalization loop of GetConnectedStarRefBotsQuery::on_result: the
next offset is rewritten from every raw record before validity is checked,
then invalid records are dropped and valid ones converted in order;
returns the kept programs and the final next offset. -/
def connectedLoop : List ConnectedBotStarRefRaw → String → List ChatAffiliateProgram × String
  | [], next_offset => ([], next_offset)
  | ref :: rest, _ =>
    let next_offset := encodeConnectedOffset ref.date ref.url
    let star_ref := ConnectedBotStarRef.ofRaw ref
    let r := connectedLoop rest next_offset
    if star_ref.is_valid then (star_ref.toChatAffiliateProgram :: r.1, r.2) else r

/-- The programs kept by GetConnectedStarRefBotsQuery::on_result. -/
def connectedPrograms (ptr : ConnectedStarRefBotsResponse) : List ChatAffiliateProgram :=
  (connectedLoop ptr.connected_bots "").1

/-- The next offset emitted by GetConnectedStarRefBotsQuery::on_result. -/
def connectedNextOffset (ptr : ConnectedStarRefBotsResponse) : String :=
  (connectedLoop ptr.connected_bots "").2

/-- The total count emitted by GetConnectedStarRefBotsQuery::on_result:
the reported count, clamped up to the number of kept programs. -/
def connectedTotal (ptr : ConnectedStarRefBotsResponse) : Int :=
  let n : Int := ((connectedPrograms ptr).length : Int)
  if ptr.count < n then n else ptr.count

/-- GetConnectedStarRefBotsQuery::on_result: a fetch failure delegates to
on_error; otherwise the raw records are normalized and the promise is
settled with the kept programs, the clamped total and the cursor of the
last raw record. -/
def GetConnectedStarRefBotsQuery_on_result
    (input : Except Err ConnectedStarRefBotsResponse) : List (Settle ChatAffiliatePrograms) :=
  match input with
  | Except.error status => GetConnectedStarRefBotsQuery_on_error status
  | Except.ok ptr =>
    [Settle.value ⟨connectedTotal ptr, connectedPrograms ptr, connectedNextOffset ptr⟩]

/-- UpdateStarRefProgramQuery::on_error settles once with the status. -/
def UpdateStarRefProgramQuery_on_error (status : Err) : List (Settle Unit) :=
  [Settle.error status]

/-- UpdateStarRefProgramQuery::on_result: a fetch failure delegates to
on_error; otherwise the updated program info is forwarded to the identity
registry (a side effect, not a settlement) and the promise is settled
with the unit value. -/
def UpdateStarRefProgramQuery_on_result
    (input : Except Err StarRefProgramRaw) : List (Settle Unit) :=
  match input with
  | Except.error status => UpdateStarRefProgramQuery_on_error status
  | Except.ok _ => [Settle.value ()]

/-- ResolveReferralProgramQuery::on_error settles once with the status. -/
def ResolveReferralProgramQuery_on_error (status : Err) : List (Settle DialogId) :=
  [Settle.error status]

/-- ResolveReferralProgramQuery::on_result: a fetch failure delegates to
on_error; a resolved peer that is not a User dialog, or a user unknown to
the identity registry, delegates to on_error with the Chat-not-found
error; otherwise the dialog is materialized and the promise is settled
with its chat handle. The users/chats ingestion is a registry side
effect and is not modelled. -/
def ResolveReferralProgramQuery_on_result (have_user : Int → Bool)
    (input : Except Err DialogId) : List (Settle DialogId) :=
  match input with
  | Except.error status => ResolveReferralProgramQuery_on_error status
  | Except.ok dialog_id =>
    match dialog_id with
    | DialogId.user uid =>
      if have_user uid then [Settle.value (DialogId.user uid)]
      else ResolveReferralProgramQuery_on_error ⟨400, "Chat not found"⟩
    | DialogId.chat _ => ResolveReferralProgramQuery_on_error ⟨400, "Chat not found"⟩
    | DialogId.channel _ => ResolveReferralProgramQuery_on_error ⟨400, "Chat not found"⟩
    | DialogId.secretChat _ => ResolveReferralProgramQuery_on_error ⟨400, "Chat not found"⟩
    | DialogId.none => ResolveReferralProgramQuery_on_error ⟨400, "Chat not found"⟩

/-! ### Outbound requests and the manager facade -/

/-- Sort orders accepted by searchAffiliatePrograms. -/
inductive ReferralProgramSortOrder where
  | profitability
  | date
  | revenue
deriving DecidableEq

/-- Wire request built by bots.updateStarRefProgram. -/
structure UpdateStarRefProgramRequest where
  flags : Int
  input_user : Int
  commission : Int
  month_count : Int
deriving DecidableEq

/-- UpdateStarRefProgramQuery::send: the duration flag is set exactly when
the month count is non-zero. -/
def UpdateStarRefProgramQuery_send (input_user : Int)
    (parameters : ReferralProgramParameters) : UpdateStarRefProgramRequest :=
  ⟨if parameters.month_count ≠ 0 then DURATION_MONTHS_MASK else 0,
    input_user, parameters.commission, parameters.month_count⟩

/-- Wire request built by payments.getSuggestedStarRefBots. -/
structure GetSuggestedStarRefBotsRequest where
  flags : Int
  input_peer : Int
  offset : String
  limit : Int
deriving DecidableEq

/-- The flag word chosen by GetSuggestedStarRefBotsQuery::send from the
sort order. -/
def suggestedSortFlags : ReferralProgramSortOrder → Int
  | ReferralProgramSortOrder.profitability => 0
  | ReferralProgramSortOrder.date => ORDER_BY_DATE_MASK
  | ReferralProgramSortOrder.revenue => ORDER_BY_REVENUE_MASK

/-- GetSuggestedStarRefBotsQuery::send: the offset string is forwarded
verbatim. -/
def GetSuggestedStarRefBotsQuery_send (input_peer : Int)
    (sort_order : ReferralProgramSortOrder) (offset : String) (limit : Int) :
    GetSuggestedStarRefBotsRequest :=
  ⟨suggestedSortFlags sort_order, input_peer, offset, limit⟩

/-- Wire request built by payments.getConnectedStarRefBots. -/
structure GetConnectedStarRefBotsRequest where
  flags : Int
  input_peer : Int
  offset_date : Int
  offset_link : String
  limit : Int
deriving DecidableEq

/-- GetConnectedStarRefBotsQuery::send: a non-empty offset is decoded into
the date and link fields and the offset flag is set; the decoded values
are forwarded, whatever the offset contained. -/
def GetConnectedStarRefBotsQuery_send (input_peer : Int) (offset : String)
    (limit : Int) : GetConnectedStarRefBotsRequest :=
  ⟨if offset = "" then 0 else OFFSET_DATE_MASK, input_peer,
    (decodeConnectedOffset offset).1, (decodeConnectedOffset offset).2, limit⟩

/-- ReferralProgramManager::set_dialog_referral_program: parameters that
are neither valid nor the zero sentinel are rejected first; then a User
target must be an editable bot, every other dialog kind is rejected with a
recoverable error; finally the input user is resolved and the update
query dispatched. The validity predicate of ReferralProgramParameters is
owned by a header outside src/, so the embedding is parametric in it. -/
def set_dialog_referral_program (is_valid : ReferralProgramParameters → Bool)
    (env : TdEnv) (dialog_id : DialogId) (parameters : ReferralProgramParameters) :
    OpOutcome UpdateStarRefProgramRequest :=
  if is_valid parameters = false ∧ parameters ≠ ⟨0, 0⟩ then
    OpOutcome.settledError ⟨400, "Invalid affiliate parameters specified"⟩
  else
    match dialog_id with
    | DialogId.user uid =>
      match env.get_bot_data uid with
      | Except.error e => OpOutcome.settledError e
      | Except.ok bot_data =>
        if bot_data.can_be_edited then
          match env.get_input_user uid with
          | Except.error e => OpOutcome.settledError e
          | Except.ok input_user =>
            OpOutcome.dispatched (UpdateStarRefProgramQuery_send input_user parameters)
        else OpOutcome.settledError ⟨400, "The bot isn't owned"⟩
    | DialogId.chat _ => OpOutcome.settledError ⟨400, "The chat can't have affiliate program"⟩
    | DialogId.channel _ => OpOutcome.settledError ⟨400, "The chat can't have affiliate program"⟩
    | DialogId.secretChat _ => OpOutcome.settledError ⟨400, "The chat can't have affiliate program"⟩
    | DialogId.none => OpOutcome.settledError ⟨400, "The chat can't have affiliate program"⟩

/-- ReferralProgramManager::search_referral_programs: eligibility first,
then the positive-limit gate, then exactly one dispatch. -/
def search_referral_programs (env : TdEnv) (dialog_id : DialogId)
    (sort_order : ReferralProgramSortOrder) (offset : String) (limit : Int) :
    OpOutcome GetSuggestedStarRefBotsRequest :=
  match check_referable_dialog_id env dialog_id with
  | CheckResult.err e => OpOutcome.settledError e
  | CheckResult.fatal => OpOutcome.fatal
  | CheckResult.ok =>
    if limit ≤ 0 then OpOutcome.settledError ⟨400, "Limit must be positive"⟩
    else
      match env.get_input_peer dialog_id with
      | Option.none => OpOutcome.fatal
      | Option.some input_peer =>
        OpOutcome.dispatched (GetSuggestedStarRefBotsQuery_send input_peer sort_order offset limit)

/-- ReferralProgramManager::connect_referral_program: eligibility, bot
resolution, then exactly one dispatch (the request is the input peer and
input user pair). -/
def connect_referral_program (env : TdEnv) (dialog_id : DialogId)
    (bot_user_id : Int) : OpOutcome (Int × Int) :=
  match check_referable_dialog_id env dialog_id with
  | CheckResult.err e => OpOutcome.settledError e
  | CheckResult.fatal => OpOutcome.fatal
  | CheckResult.ok =>
    match env.get_input_user bot_user_id with
    | Except.error e => OpOutcome.settledError e
    | Except.ok input_user =>
      match env.get_input_peer dialog_id with
      | Option.none => OpOutcome.fatal
      | Option.some input_peer => OpOutcome.dispatched (input_peer, input_user)

/-- ReferralProgramManager::revoke_referral_program: eligibility, then
exactly one dispatch (the request is the input peer and the url). -/
def revoke_referral_program (env : TdEnv) (dialog_id : DialogId)
    (url : String) : OpOutcome (Int × String) :=
  match check_referable_dialog_id env dialog_id with
  | CheckResult.err e => OpOutcome.settledError e
  | CheckResult.fatal => OpOutcome.fatal
  | CheckResult.ok =>
    match env.get_input_peer dialog_id with
    | Option.none => OpOutcome.fatal
    | Option.some input_peer => OpOutcome.dispatched (input_peer, url)

/-- ReferralProgramManager::get_connected_referral_program: eligibility,
bot resolution, then exactly one dispatch. -/
def get_connected_referral_program (env : TdEnv) (dialog_id : DialogId)
    (bot_user_id : Int) : OpOutcome (Int × Int) :=
  match check_referable_dialog_id env dialog_id with
  | CheckResult.err e => OpOutcome.settledError e
  | CheckResult.fatal => OpOutcome.fatal
  | CheckResult.ok =>
    match env.get_input_user bot_user_id with
    | Except.error e => OpOutcome.settledError e
    | Except.ok input_user =>
      match env.get_input_peer dialog_id with
      | Option.none => OpOutcome.fatal
      | Option.some input_peer => OpOutcome.dispatched (input_peer, input_user)

/-- ReferralProgramManager::get_connected_referral_programs: eligibility
first, then the positive-limit gate, then exactly one dispatch with the
decoded cursor. -/
def get_connected_referral_programs (env : TdEnv) (dialog_id : DialogId)
    (offset : String) (limit : Int) : OpOutcome GetConnectedStarRefBotsRequest :=
  match check_referable_dialog_id env dialog_id with
  | CheckResult.err e => OpOutcome.settledError e
  | CheckResult.fatal => OpOutcome.fatal
  | CheckResult.ok =>
    if limit ≤ 0 then OpOutcome.settledError ⟨400, "Limit must be positive"⟩
    else
      match env.get_input_peer dialog_id with
      | Option.none => OpOutcome.fatal
      | Option.some input_peer =>
        OpOutcome.dispatched (GetConnectedStarRefBotsQuery_send input_peer offset limit)

/-! ### Concrete collaborator instances used to evaluate the theorems -/

/-- A permissive collaborator environment: every dialog is readable, user 1
is the current user, user 2 is an editable bot, user 3 is a bot that
cannot be edited, channel 10 is a broadcast channel with post rights, and
wire references resolve. -/
def env0 : TdEnv where
  check_dialog_access := fun _ => Except.ok ()
  my_dialog_id := DialogId.user 1
  get_bot_data := fun uid =>
    if uid = 2 then Except.ok ⟨true⟩
    else if uid = 3 then Except.ok ⟨false⟩
    else Except.error ⟨400, "Bot not found"⟩
  is_broadcast_channel := fun cid => decide (cid = 10)
  can_post_messages := fun cid => decide (cid = 10)
  get_input_user := fun uid => Except.ok uid
  get_input_peer := fun _ => Option.some 7

/-- A sample validity predicate for program parameters, standing in for
the collaborator-owned bounds: a positive commission and a month count
between 0 and 36. -/
def sampleParamValid (p : ReferralProgramParameters) : Bool :=
  decide (0 < p.commission) && decide (0 ≤ p.month_count) && decide (p.month_count ≤ 36)

/-- A raw connected record that fails validity: empty url and zero bot
identifier. -/
def badRaw : ConnectedBotStarRefRaw :=
  ⟨false, "", 0, 0, 0, 0, 0, 0⟩

/-- A raw connected record that passes validity. -/
def goodRaw : ConnectedBotStarRefRaw :=
  ⟨false, "https://t.me/bot", 1700000000, 2, 100, 6, 3, 5⟩

/-! ### Helper lemmas about the decimal digit model -/

theorem natDigits_ne_nil (n : Nat) : natDigits n ≠ [] := by
  rw [natDigits]
  split
  · simp
  · simp

theorem isDigit_digitChar {k : Nat} (h : k < 10) : (Nat.digitChar k).isDigit = true := by
  interval_cases k <;> decide

theorem digitVal_digitChar {k : Nat} (h : k < 10) : digitVal (Nat.digitChar k) = k := by
  interval_cases k <;> decide

theorem natDigits_all_digits (n : Nat) : ∀ c ∈ natDigits n, c.isDigit = true := by
  induction n using Nat.strongRecOn with
  | ind n ih =>
    rw [natDigits]
    split
    · next h =>
      intro c hc
      rw [List.mem_singleton] at hc
      subst hc
      exact isDigit_digitChar h
    · next h =>
      intro c hc
      rw [List.mem_append] at hc
      rcases hc with hc | hc
      · exact ih (n / 10) (Nat.div_lt_self (by omega) (by omega)) c hc
      · rw [List.mem_singleton] at hc
        subst hc
        exact isDigit_digitChar (Nat.mod_lt _ (by omega))

theorem isDigit_ne_space {c : Char} (h : c.isDigit = true) : c ≠ ' ' := by
  intro he
  subst he
  exact absurd h (by decide)

theorem isDigit_ne_minus {c : Char} (h : c.isDigit = true) : c ≠ '-' := by
  intro he
  subst he
  exact absurd h (by decide)

theorem digitRunVal_append (l1 l2 : List Char) (acc : Nat)
    (h : ∀ c ∈ l1, c.isDigit = true) :
    digitRunVal (l1 ++ l2) acc = digitRunVal l2 (digitRunVal l1 acc) := by
  induction l1 generalizing acc with
  | nil => rfl
  | cons c t ih =>
    have hc := h c (List.mem_cons_self c t)
    simp only [List.cons_append, digitRunVal, hc, if_true]
    exact ih _ (fun x hx => h x (List.mem_cons_of_mem _ hx))

theorem digitRunVal_natDigits (n : Nat) :
    ∀ acc, digitRunVal (natDigits n) acc = acc * 10 ^ (natDigits n).length + n := by
  induction n using Nat.strongRecOn with
  | ind n ih =>
    intro acc
    rw [natDigits]
    split
    · next h =>
      have h10 := isDigit_digitChar h
      simp only [digitRunVal, h10, if_true, digitVal_digitChar h, List.length_cons,
        List.length_nil, pow_one, zero_add]
    · next h =>
      have hlt : n / 10 < n := Nat.div_lt_self (by omega) (by omega)
      have hm : n % 10 < 10 := Nat.mod_lt _ (by omega)
      rw [digitRunVal_append _ _ _ (natDigits_all_digits _), ih _ hlt]
      simp only [digitRunVal, isDigit_digitChar hm, if_true, digitVal_digitChar hm,
        List.length_append, List.length_cons, List.length_nil, zero_add, pow_succ,
        ← mul_assoc]
      generalize acc * 10 ^ (natDigits (n / 10)).length = A
      omega

theorem digitRunVal_natDigits_zero (n : Nat) : digitRunVal (natDigits n) 0 = n := by
  simpa using digitRunVal_natDigits n 0

theorem splitData_append (a b : List Char) (h : ∀ c ∈ a, c ≠ ' ') :
    splitData (a ++ ' ' :: b) = (a, b) := by
  induction a with
  | nil => simp [splitData]
  | cons c t ih =>
    have hc : c ≠ ' ' := h c (List.mem_cons_self c t)
    simp only [List.cons_append, splitData, if_neg hc, List.append_eq]
    rw [ih (fun x hx => h x (List.mem_cons_of_mem _ hx))]

theorem string_data_append (s t : String) : (s ++ t).data = s.data ++ t.data := by
  cases s
  cases t
  rfl

theorem string_mk_data (s : String) : String.mk s.data = s := rfl

/-! ### Helper lemmas about the normalization loops -/

theorem connectedLoop_snd_cons (r : ConnectedBotStarRefRaw)
    (rest : List ConnectedBotStarRefRaw) (init : String) :
    (connectedLoop (r :: rest) init).2 =
      (connectedLoop rest (encodeConnectedOffset r.date r.url)).2 := by
  simp only [connectedLoop]
  split <;> rfl

theorem connectedLoop_snd (l : List ConnectedBotStarRefRaw) (init : String)
    (last : ConnectedBotStarRefRaw) (h : l.getLast? = some last) :
    (connectedLoop l init).2 = encodeConnectedOffset last.date last.url := by
  induction l generalizing init with
  | nil => simp at h
  | cons r rest ih =>
    rw [connectedLoop_snd_cons]
    cases rest with
    | nil =>
      simp only [List.getLast?_singleton, Option.some.injEq] at h
      subst h
      rfl
    | cons r2 t =>
      rw [List.getLast?_cons_cons] at h
      exact ih _ h

theorem connectedLoop_fst (l : List ConnectedBotStarRefRaw) (init : String) :
    (connectedLoop l init).1 =
      (l.filter (fun r => (ConnectedBotStarRef.ofRaw r).is_valid)).map
        (fun r => (ConnectedBotStarRef.ofRaw r).toChatAffiliateProgram) := by
  induction l generalizing init with
  | nil => rfl
  | cons r rest ih =>
    simp only [connectedLoop, List.filter]
    cases h : (ConnectedBotStarRef.ofRaw r).is_valid <;>
      simp [h, ih]

theorem suggestedLoop_eq (l : List StarRefProgramRaw) :
    suggestedLoop l =
      (l.filter (fun r => (SuggestedBotStarRef.ofRaw r).is_valid)).map
        (fun r => (SuggestedBotStarRef.ofRaw r).toFound) := by
  induction l with
  | nil => rfl
  | cons r rest ih =>
    simp only [suggestedLoop, List.filter]
    cases h : (SuggestedBotStarRef.ofRaw r).is_valid <;>
      simp [h, ih]

theorem if_lt_eq_max (a b : Int) : (if a < b then b else a) = max a b := by
  rcases le_or_lt b a with h | h
  · rw [if_neg (not_lt.mpr h), max_eq_left h]
  · rw [if_pos h, max_eq_right h.le]

/-! ### Claim theorems -/

/-- C1: every completion path of all seven query adapters settles the
caller's promise exactly once: each on_result invocation produces exactly
one settlement event, either a success value or, through on_error, an
error; no path settles twice or not at all. -/
theorem completion_settled_exactly_once :
    ∀ (a : Except Err SuggestedStarRefBotsResponse)
      (b c d e : Except Err ConnectedStarRefBotsResponse)
      (f : Except Err StarRefProgramRaw)
      (have_user : Int → Bool) (g : Except Err DialogId),
      (GetSuggestedStarRefBotsQuery_on_result a).length = 1 ∧
      (ConnectStarRefBotQuery_on_result b).length = 1 ∧
      (EditConnectedStarRefBotQuery_on_result c).length = 1 ∧
      (GetConnectedStarRefBotQuery_on_result d).length = 1 ∧
      (GetConnectedStarRefBotsQuery_on_result e).length = 1 ∧
      (UpdateStarRefProgramQuery_on_result f).length = 1 ∧
      (ResolveReferralProgramQuery_on_result have_user g).length = 1 := by
  intro a b c d e f have_user g
  refine ⟨?_, ?_, ?_, ?_, ?_, ?_, ?_⟩
  · cases a <;>
      simp [GetSuggestedStarRefBotsQuery_on_result, GetSuggestedStarRefBotsQuery_on_error]
  · cases b with
    | error st => simp [ConnectStarRefBotQuery_on_result, ConnectStarRefBotQuery_on_error]
    | ok ptr =>
      obtain ⟨cnt, bots⟩ := ptr
      rcases bots with _ | ⟨r, _ | ⟨r2, t⟩⟩
      · simp [ConnectStarRefBotQuery_on_result, ConnectStarRefBotQuery_on_error]
      · simp only [ConnectStarRefBotQuery_on_result]
        split <;> simp [ConnectStarRefBotQuery_on_error]
      · simp [ConnectStarRefBotQuery_on_result, ConnectStarRefBotQuery_on_error]
  · cases c with
    | error st =>
      simp [EditConnectedStarRefBotQuery_on_result, EditConnectedStarRefBotQuery_on_error]
    | ok ptr =>
      obtain ⟨cnt, bots⟩ := ptr
      rcases bots with _ | ⟨r, _ | ⟨r2, t⟩⟩
      · simp [EditConnectedStarRefBotQuery_on_result, EditConnectedStarRefBotQuery_on_error]
      · simp only [EditConnectedStarRefBotQuery_on_result]
        split <;> simp [EditConnectedStarRefBotQuery_on_error]
      · simp [EditConnectedStarRefBotQuery_on_result, EditConnectedStarRefBotQuery_on_error]
  · cases d with
    | error st =>
      simp [GetConnectedStarRefBotQuery_on_result, GetConnectedStarRefBotQuery_on_error]
    | ok ptr =>
      obtain ⟨cnt, bots⟩ := ptr
      rcases bots with _ | ⟨r, _ | ⟨r2, t⟩⟩
      · simp [GetConnectedStarRefBotQuery_on_result, GetConnectedStarRefBotQuery_on_error]
      · simp only [GetConnectedStarRefBotQuery_on_result]
        split <;> simp [GetConnectedStarRefBotQuery_on_error]
      · simp [GetConnectedStarRefBotQuery_on_result, GetConnectedStarRefBotQuery_on_error]
  · cases e <;>
      simp [GetConnectedStarRefBotsQuery_on_result, GetConnectedStarRefBotsQuery_on_error]
  · cases f <;>
      simp [UpdateStarRefProgramQuery_on_result, UpdateStarRefProgramQuery_on_error]
  · cases g with
    | error st =>
      simp [ResolveReferralProgramQuery_on_result, ResolveReferralProgramQuery_on_error]
    | ok dialog_id =>
      cases dialog_id with
      | user uid =>
        cases h : have_user uid <;>
          simp [ResolveReferralProgramQuery_on_result,
            ResolveReferralProgramQuery_on_error, h]
      | chat i =>
        simp [ResolveReferralProgramQuery_on_result, ResolveReferralProgramQuery_on_error]
      | channel i =>
        simp [ResolveReferralProgramQuery_on_result, ResolveReferralProgramQuery_on_error]
      | secretChat i =>
        simp [ResolveReferralProgramQuery_on_result, ResolveReferralProgramQuery_on_error]
      | none =>
        simp [ResolveReferralProgramQuery_on_result, ResolveReferralProgramQuery_on_error]

/-- C3: the get-single-connection response with zero records settles
successfully with a null value; with two or more records it settles with
the internal protocol error; with exactly one record that fails validity
it also settles with the protocol error rather than dropping it. -/
theorem get_single_connection_shape (ptr : ConnectedStarRefBotsResponse) :
    (ptr.connected_bots = [] →
      GetConnectedStarRefBotQuery_on_result (Except.ok ptr) = [Settle.value Option.none]) ∧
    (2 ≤ ptr.connected_bots.length →
      GetConnectedStarRefBotQuery_on_result (Except.ok ptr) =
        [Settle.error ⟨500, "Receive invalid response"⟩]) ∧
    (∀ raw, ptr.connected_bots = [raw] →
      (ConnectedBotStarRef.ofRaw raw).is_valid = false →
      GetConnectedStarRefBotQuery_on_result (Except.ok ptr) =
        [Settle.error ⟨500, "Receive invalid response"⟩]) := by
  obtain ⟨cnt, bots⟩ := ptr
  rcases bots with _ | ⟨r, _ | ⟨r2, t⟩⟩
  · refine ⟨fun _ => rfl, ?_, ?_⟩
    · intro h; simp at h
    · intro raw h; simp at h
  · refine ⟨?_, ?_, ?_⟩
    · intro h; simp at h
    · intro h; simp at h
    · intro raw h hval
      simp only [List.cons.injEq, and_true] at h
      subst h
      simp [GetConnectedStarRefBotQuery_on_result, GetConnectedStarRefBotQuery_on_error, hval]
  · refine ⟨?_, fun _ => ?_, ?_⟩
    · intro h; simp at h
    · simp [GetConnectedStarRefBotQuery_on_result, GetConnectedStarRefBotQuery_on_error]
    · intro raw h; simp at h

/-- Witness for C3 at concrete responses: an empty response, a two-record
response and a single invalid record. -/
theorem get_single_connection_shape_witness :
    GetConnectedStarRefBotQuery_on_result (Except.ok ⟨0, []⟩) = [Settle.value Option.none] ∧
    GetConnectedStarRefBotQuery_on_result (Except.ok ⟨2, [goodRaw, goodRaw]⟩) =
      [Settle.error ⟨500, "Receive invalid response"⟩] ∧
    GetConnectedStarRefBotQuery_on_result (Except.ok ⟨1, [badRaw]⟩) =
      [Settle.error ⟨500, "Receive invalid response"⟩] :=
  ⟨(get_single_connection_shape ⟨0, []⟩).1 rfl,
   (get_single_connection_shape ⟨2, [goodRaw, goodRaw]⟩).2.1 (by decide),
   (get_single_connection_shape ⟨1, [badRaw]⟩).2.2 badRaw rfl (by decide)⟩

/-- C9: once the eligibility check passes, a non-positive limit settles
both the search-suggested-programs and the list-connections operations
with the positive-limit validation error, and no request is dispatched. -/
theorem nonpositive_limit_rejected (env : TdEnv) (dialog_id : DialogId)
    (sort_order : ReferralProgramSortOrder) (offset : String) (limit : Int)
    (hok : check_referable_dialog_id env dialog_id = CheckResult.ok)
    (hlim : limit ≤ 0) :
    search_referral_programs env dialog_id sort_order offset limit =
      OpOutcome.settledError ⟨400, "Limit must be positive"⟩ ∧
    get_connected_referral_programs env dialog_id offset limit =
      OpOutcome.settledError ⟨400, "Limit must be positive"⟩ := by
  unfold search_referral_programs get_connected_referral_programs
  rw [hok]
  simp [hlim]

/-- Witness for C9: a broadcast channel with post rights and limit zero. -/
theorem nonpositive_limit_rejected_witness :
    search_referral_programs env0 (DialogId.channel 10)
        ReferralProgramSortOrder.profitability "" 0 =
      OpOutcome.settledError ⟨400, "Limit must be positive"⟩ ∧
    get_connected_referral_programs env0 (DialogId.channel 10) "" 0 =
      OpOutcome.settledError ⟨400, "Limit must be positive"⟩ :=
  nonpositive_limit_rejected env0 (DialogId.channel 10)
    ReferralProgramSortOrder.profitability "" 0 (by rfl) (by decide)

/-- C10: once the parameter gate passes, set-program rejects every
non-User target with the recoverable 400 error, SecretChat and None
included, whereas the shared eligibility validator maps SecretChat and
None (under read access) to the fatal unreachable branch. -/
theorem set_program_nonuser_recoverable (is_valid : ReferralProgramParameters → Bool)
    (env : TdEnv) (dialog_id : DialogId) (parameters : ReferralProgramParameters)
    (hp : is_valid parameters = true ∨ parameters = ⟨0, 0⟩)
    (hd : ∀ uid, dialog_id ≠ DialogId.user uid) :
    set_dialog_referral_program is_valid env dialog_id parameters =
      OpOutcome.settledError ⟨400, "The chat can't have affiliate program"⟩ ∧
    (∀ i, env.check_dialog_access (DialogId.secretChat i) = Except.ok () →
      check_referable_dialog_id env (DialogId.secretChat i) = CheckResult.fatal) ∧
    (env.check_dialog_access DialogId.none = Except.ok () →
      check_referable_dialog_id env DialogId.none = CheckResult.fatal) := by
  refine ⟨?_, ?_, ?_⟩
  · unfold set_dialog_referral_program
    rw [if_neg]
    · cases dialog_id with
      | user uid => exact absurd rfl (hd uid)
      | chat i => rfl
      | channel i => rfl
      | secretChat i => rfl
      | none => rfl
    · rintro ⟨h1, h2⟩
      rcases hp with hp | hp
      · rw [hp] at h1; exact absurd h1 (by decide)
      · exact h2 hp
  · intro i hacc
    unfold check_referable_dialog_id
    rw [hacc]
  · intro hacc
    unfold check_referable_dialog_id
    rw [hacc]

/-- Witness for C10: sentinel parameters and a secret chat target. -/
theorem set_program_nonuser_recoverable_witness :
    set_dialog_referral_program sampleParamValid env0 (DialogId.secretChat 4) ⟨0, 0⟩ =
      OpOutcome.settledError ⟨400, "The chat can't have affiliate program"⟩ ∧
    (∀ i, env0.check_dialog_access (DialogId.secretChat i) = Except.ok () →
      check_referable_dialog_id env0 (DialogId.secretChat i) = CheckResult.fatal) ∧
    (env0.check_dialog_access DialogId.none = Except.ok () →
      check_referable_dialog_id env0 DialogId.none = CheckResult.fatal) :=
  set_program_nonuser_recoverable sampleParamValid env0 (DialogId.secretChat 4) ⟨0, 0⟩
    (Or.inr rfl) (fun uid h => by simp at h)

/-- C2: the eligibility check shared by search, connect, revise/revoke,
get-single-connection and list-connections: a Chat target is never
accepted; a Channel target is accepted exactly when it is readable, a
broadcast channel and the caller can post messages; a User target is
accepted exactly when it is readable and is the caller itself or a bot
whose data can be edited. -/
theorem eligibility_rules (env : TdEnv) (dialog_id : DialogId) :
    (∀ i, dialog_id = DialogId.chat i →
      check_referable_dialog_id env dialog_id ≠ CheckResult.ok) ∧
    (∀ i, dialog_id = DialogId.channel i →
      (check_referable_dialog_id env dialog_id = CheckResult.ok ↔
        env.check_dialog_access dialog_id = Except.ok () ∧
          env.is_broadcast_channel i = true ∧ env.can_post_messages i = true)) ∧
    (∀ uid, dialog_id = DialogId.user uid →
      (check_referable_dialog_id env dialog_id = CheckResult.ok ↔
        env.check_dialog_access dialog_id = Except.ok () ∧
          (DialogId.user uid = env.my_dialog_id ∨
            ∃ bot_data, env.get_bot_data uid = Except.ok bot_data ∧
              bot_data.can_be_edited = true))) := by
  refine ⟨?_, ?_, ?_⟩
  · rintro i rfl
    unfold check_referable_dialog_id
    cases h : env.check_dialog_access (DialogId.chat i) <;> simp
  · rintro i rfl
    unfold check_referable_dialog_id
    cases h : env.check_dialog_access (DialogId.channel i) with
    | error e => simp [h]
    | ok u =>
      cases hb : env.is_broadcast_channel i <;>
        cases hpm : env.can_post_messages i <;>
          simp [h, hb, hpm]
  · rintro uid rfl
    unfold check_referable_dialog_id
    cases h : env.check_dialog_access (DialogId.user uid) with
    | error e => simp [h]
    | ok u =>
      by_cases hmy : DialogId.user uid = env.my_dialog_id
      · simp [h, hmy]
      · cases hbd : env.get_bot_data uid with
        | error e => simp [h, hmy, hbd]
        | ok bot_data =>
          cases he : bot_data.can_be_edited <;> simp [h, hmy, hbd, he]

/-- Witness for C2: a basic group is rejected, the eligible broadcast
channel and the caller's own user dialog satisfy the characterization. -/
theorem eligibility_rules_witness :
    check_referable_dialog_id env0 (DialogId.chat 5) ≠ CheckResult.ok ∧
    (check_referable_dialog_id env0 (DialogId.channel 10) = CheckResult.ok ↔
      env0.check_dialog_access (DialogId.channel 10) = Except.ok () ∧
        env0.is_broadcast_channel 10 = true ∧ env0.can_post_messages 10 = true) ∧
    (check_referable_dialog_id env0 (DialogId.user 1) = CheckResult.ok ↔
      env0.check_dialog_access (DialogId.user 1) = Except.ok () ∧
        (DialogId.user 1 = env0.my_dialog_id ∨
          ∃ bot_data, env0.get_bot_data 1 = Except.ok bot_data ∧
            bot_data.can_be_edited = true)) :=
  ⟨(eligibility_rules env0 (DialogId.chat 5)).1 5 rfl,
   (eligibility_rules env0 (DialogId.channel 10)).2.1 10 rfl,
   (eligibility_rules env0 (DialogId.user 1)).2.2 1 rfl⟩

/-- C8: set-program settles with the invalid-parameters validation error
whenever the parameters are neither valid nor the zero sentinel, and when
the parameters are valid or equal to the sentinel the validity predicate
plays no role in the outcome: the operation behaves exactly as under a
predicate that always accepts, so the sentinel can only be rejected by
the ownership checks. -/
theorem set_program_param_gate (is_valid : ReferralProgramParameters → Bool)
    (env : TdEnv) (dialog_id : DialogId) (parameters : ReferralProgramParameters) :
    (is_valid parameters = false → parameters ≠ ⟨0, 0⟩ →
      set_dialog_referral_program is_valid env dialog_id parameters =
        OpOutcome.settledError ⟨400, "Invalid affiliate parameters specified"⟩) ∧
    (is_valid parameters = true ∨ parameters = ⟨0, 0⟩ →
      set_dialog_referral_program is_valid env dialog_id parameters =
        set_dialog_referral_program (fun _ => true) env dialog_id parameters) := by
  constructor
  · intro h1 h2
    unfold set_dialog_referral_program
    rw [if_pos ⟨h1, h2⟩]
  · intro hp
    unfold set_dialog_referral_program
    rw [if_neg, if_neg]
    · rintro ⟨h1, _⟩
      simp at h1
    · rintro ⟨h1, h2⟩
      rcases hp with hp | hp
      · rw [hp] at h1; exact absurd h1 (by decide)
      · exact h2 hp

/-- Witness for C8: invalid non-sentinel parameters are rejected with the
validation error; the sentinel behaves as under an always-true
predicate. -/
theorem set_program_param_gate_witness :
    set_dialog_referral_program sampleParamValid env0 (DialogId.user 2) ⟨0, 5⟩ =
      OpOutcome.settledError ⟨400, "Invalid affiliate parameters specified"⟩ ∧
    set_dialog_referral_program sampleParamValid env0 (DialogId.user 2) ⟨0, 0⟩ =
      set_dialog_referral_program (fun _ => true) env0 (DialogId.user 2) ⟨0, 0⟩ :=
  ⟨(set_program_param_gate sampleParamValid env0 (DialogId.user 2) ⟨0, 5⟩).1
      (by decide) (by decide),
   (set_program_param_gate sampleParamValid env0 (DialogId.user 2) ⟨0, 0⟩).2
      (Or.inr rfl)⟩

/-- Counterexample for C4: with an eligible broadcast channel and a
positive limit, the cursor "abc" has no parseable leading integer, yet
list-connections does not settle with a validation error: it dispatches a
request whose offset date was silently coerced to 0 and whose link is
empty. -/
theorem malformed_cursor_not_rejected_counterexample :
    get_connected_referral_programs env0 (DialogId.channel 10) "abc" 10 =
      OpOutcome.dispatched ⟨OFFSET_DATE_MASK, 7, 0, "", 10⟩ := by
  rfl

/-- C4 as amended: once eligibility and the positive-limit gate pass, the
list-connections operation dispatches for every cursor string, malformed
cursors included; the leading token is parsed best effort by to_integer
and no validation error is ever surfaced for the cursor. -/
theorem cursor_always_dispatched (env : TdEnv) (dialog_id : DialogId)
    (offset : String) (limit : Int) (input_peer : Int)
    (hok : check_referable_dialog_id env dialog_id = CheckResult.ok)
    (hlim : 0 < limit)
    (hpeer : env.get_input_peer dialog_id = Option.some input_peer) :
    get_connected_referral_programs env dialog_id offset limit =
      OpOutcome.dispatched (GetConnectedStarRefBotsQuery_send input_peer offset limit) := by
  unfold get_connected_referral_programs
  rw [hok, if_neg (not_le.mpr hlim), hpeer]

/-- Witness for the amended C4 at a concrete malformed cursor. -/
theorem cursor_always_dispatched_witness :
    get_connected_referral_programs env0 (DialogId.channel 10) "xyz 5" 3 =
      OpOutcome.dispatched (GetConnectedStarRefBotsQuery_send 7 "xyz 5" 3) :=
  cursor_always_dispatched env0 (DialogId.channel 10) "xyz 5" 3 7
    (by rfl) (by decide) (by rfl)

/-- C5: whenever the raw list of the list-connections response is
non-empty, the emitted next cursor is the date-space-url encoding of the
last raw record, whether or not that record passed validity. -/
theorem list_connections_cursor_from_last_raw (ptr : ConnectedStarRefBotsResponse)
    (last : ConnectedBotStarRefRaw)
    (h : ptr.connected_bots.getLast? = some last) :
    connectedNextOffset ptr = encodeConnectedOffset last.date last.url ∧
    GetConnectedStarRefBotsQuery_on_result (Except.ok ptr) =
      [Settle.value ⟨connectedTotal ptr, connectedPrograms ptr,
        encodeConnectedOffset last.date last.url⟩] := by
  have h2 : connectedNextOffset ptr = encodeConnectedOffset last.date last.url :=
    connectedLoop_snd _ "" last h
  exact ⟨h2, by rw [← h2]; rfl⟩

/-- Witness for C5: the last raw record is invalid and dropped, yet the
cursor still comes from it. -/
theorem list_connections_cursor_from_last_raw_witness :
    connectedNextOffset ⟨5, [goodRaw, badRaw]⟩ =
      encodeConnectedOffset badRaw.date badRaw.url ∧
    GetConnectedStarRefBotsQuery_on_result (Except.ok ⟨5, [goodRaw, badRaw]⟩) =
      [Settle.value ⟨connectedTotal ⟨5, [goodRaw, badRaw]⟩,
        connectedPrograms ⟨5, [goodRaw, badRaw]⟩,
        encodeConnectedOffset badRaw.date badRaw.url⟩] :=
  list_connections_cursor_from_last_raw ⟨5, [goodRaw, badRaw]⟩ badRaw (by rfl)

/-- C6: in both list-producing operations the settled result keeps exactly
the valid records, in order, and reports the raw total clamped up to the
number of kept records: max of the reported count and the kept length. -/
theorem list_normalization_counts (sp : SuggestedStarRefBotsResponse)
    (cp : ConnectedStarRefBotsResponse) :
    suggestedLoop sp.suggested_bots =
      (sp.suggested_bots.filter (fun r => (SuggestedBotStarRef.ofRaw r).is_valid)).map
        (fun r => (SuggestedBotStarRef.ofRaw r).toFound) ∧
    suggestedTotal sp = max sp.count
      (((sp.suggested_bots.filter
          (fun r => (SuggestedBotStarRef.ofRaw r).is_valid)).length : Int)) ∧
    connectedPrograms cp =
      (cp.connected_bots.filter (fun r => (ConnectedBotStarRef.ofRaw r).is_valid)).map
        (fun r => (ConnectedBotStarRef.ofRaw r).toChatAffiliateProgram) ∧
    connectedTotal cp = max cp.count
      (((cp.connected_bots.filter
          (fun r => (ConnectedBotStarRef.ofRaw r).is_valid)).length : Int)) ∧
    GetSuggestedStarRefBotsQuery_on_result (Except.ok sp) =
      [Settle.value ⟨suggestedTotal sp, suggestedLoop sp.suggested_bots, sp.next_offset⟩] ∧
    GetConnectedStarRefBotsQuery_on_result (Except.ok cp) =
      [Settle.value ⟨connectedTotal cp, connectedPrograms cp, connectedNextOffset cp⟩] := by
  refine ⟨suggestedLoop_eq _, ?_, connectedLoop_fst _ _, ?_, rfl, rfl⟩
  · unfold suggestedTotal
    rw [suggestedLoop_eq, List.length_map, if_lt_eq_max]
  · unfold connectedTotal connectedPrograms
    rw [connectedLoop_fst, List.length_map, if_lt_eq_max]

/-- C7: decoding the encoded cursor returns the original date and url for
every non-negative int32 date and every url, and decoding the empty
string yields the start-of-list cursor. -/
theorem cursor_roundtrip (date : Int) (url : String) (h0 : 0 ≤ date)
    (h1 : date < 2147483648) :
    decodeConnectedOffset (encodeConnectedOffset date url) = (date, url) ∧
    decodeConnectedOffset "" = (0, "") := by
  refine ⟨?_, rfl⟩
  have hd : (encodeConnectedOffset date url).data =
      natDigits date.toNat ++ (' ' :: url.data) := by
    unfold encodeConnectedOffset intRepr natRepr
    rw [if_neg (not_lt.mpr h0)]
    rw [string_data_append, string_data_append, List.append_assoc]
    rfl
  have hnonnil := natDigits_ne_nil date.toNat
  have hne : encodeConnectedOffset date url ≠ "" := by
    intro he
    have hnil : (encodeConnectedOffset date url).data = [] := by rw [he]
    rw [hd] at hnil
    exact hnonnil (List.append_eq_nil.mp hnil).1
  have hsplit2 : split (encodeConnectedOffset date url) =
      (String.mk (natDigits date.toNat), url) := by
    unfold split
    rw [hd, splitData_append _ _
      (fun c hc => isDigit_ne_space (natDigits_all_digits _ c hc))]
  unfold decodeConnectedOffset
  rw [if_neg hne, hsplit2]
  show (to_integer_i32 (String.mk (natDigits date.toNat)), url) = (date, url)
  have hti : to_integer_i32 (String.mk (natDigits date.toNat)) = date := by
    unfold to_integer_i32
    rcases hcons : natDigits date.toNat with _ | ⟨c, rest⟩
    · exact absurd hcons hnonnil
    · have hcd : c.isDigit = true :=
        natDigits_all_digits date.toNat c (by rw [hcons]; exact List.mem_cons_self c rest)
      simp only [hcons]
      rw [if_neg (isDigit_ne_minus hcd), ← hcons, digitRunVal_natDigits_zero]
      have hcast : ((date.toNat : Nat) : Int) = date := Int.toNat_of_nonneg h0
      rw [hcast]
      simp only [int32_wrap]
      have hmod : date % 4294967296 = date := Int.emod_eq_of_lt h0 (by omega)
      rw [hmod, if_pos h1]
  rw [hti]

/-- Witness for C7 at the cursor of the spec scenario. -/
theorem cursor_roundtrip_witness :
    decodeConnectedOffset (encodeConnectedOffset 1700000000 "https://t.me/bot") =
      (1700000000, "https://t.me/bot") ∧
    decodeConnectedOffset "" = (0, "") :=
  cursor_roundtrip 1700000000 "https://t.me/bot" (by decide) (by decide)

end TdRef
